import Mathlib

/-!
Verification of the Alfred repository's bridge layer.

The repository contains one implemented function, `sqlite_vec_register`
(src/client/Memory/CSqliteVec/sqlite_vec_register.c), plus a header
(src/client/Memory/CLlama/alfred_llama.h) that only declares the external
inference-engine API.  The shim is embedded faithfully below; the declared
but unimplemented engine operations are modelled from the specification,
each such definition carrying a doc comment that says so.
-/

namespace SqliteVec

/-- Outcome of one call to the external `sqlite3_vec_init`: the integer
status code it returns, and the contents of the error-message buffer it may
have allocated into `*err` (`none` models leaving the pointer NULL). -/
structure InitOutcome where
  rc : Int
  err : Option String
deriving Repr, DecidableEq

/-- Result of `sqlite_vec_register` as embedded from the C source: the
returned status code, the list of buffers passed to `sqlite3_free`, and the
error pointer handed back to the caller.  The C function's signature is
`int sqlite_vec_register(sqlite3 *db)`, so the only channel back to the
caller is the integer; `returnedErr` records that no pointer escapes. -/
structure RegisterResult where
  rc : Int
  freed : List String
  returnedErr : Option String
deriving Repr, DecidableEq

/-- Shallow embedding of the C body of `sqlite_vec_register`:
`char *err = NULL; int rc = sqlite3_vec_init(db, &err, NULL);
if (err) { sqlite3_free(err); } return rc;`
The call to the external `sqlite3_vec_init` is abstracted by its outcome
`out`; the embedding records exactly what the straight-line code does with
that outcome. -/
def sqlite_vec_register (out : InitOutcome) : RegisterResult :=
  let err := out.err
  let rc := out.rc
  let freed := match err with
    | some e => [e]
    | none => []
  { rc := rc, freed := freed, returnedErr := none }

/-- A buffer is leaked by a register call when the init call allocated it
and the register body did not free it. -/
def leaks (out : InitOutcome) : Prop :=
  ∃ e, out.err = some e ∧ e ∉ (sqlite_vec_register out).freed

/-- Observable result of a register call from the caller's point of view:
the C signature `int sqlite_vec_register(sqlite3 *db)` hands back only the
integer status and (vacuously) no error pointer. -/
def callerView (r : RegisterResult) : Int × Option String :=
  (r.rc, r.returnedErr)

/-- State of a database connection relevant to vector registration: how
many copies of the vector function set are installed in its namespace. -/
structure Connection where
  installedSets : Nat
deriving Repr, DecidableEq

/-- Modelled from the spec: the external `sqlite3_vec_init` (the sqlite-vec
extension entry point, not part of this repository) installs the vector
function set into the connection namespace.  Per the spec it is idempotent
— a repeat call on an already-registered connection is a benign no-op with
status 0 — and on internal failure (out of memory, modelled by the `oom`
flag) it returns a non-zero status and sets the error-message buffer. -/
def sqlite3_vec_init (oom : Bool) (conn : Connection) :
    Connection × InitOutcome :=
  if 0 < conn.installedSets then
    (conn, { rc := 0, err := none })
  else if oom then
    (conn, { rc := 1, err := some "out of memory" })
  else
    ({ installedSets := conn.installedSets + 1 }, { rc := 0, err := none })

/-- The register shim run against the modelled connection-level init: the
straight-line C body of `sqlite_vec_register` composed with the modelled
`sqlite3_vec_init`, threading the connection state. -/
def registerOn (oom : Bool) (conn : Connection) :
    Connection × RegisterResult :=
  let p := sqlite3_vec_init oom conn
  (p.1, sqlite_vec_register p.2)

end SqliteVec

namespace Llama

/-- A token id, `int32_t llama_token` in the header. -/
abbrev Token := Int

/-- The vocabulary's beginning-of-sequence token, prepended when
`add_special` is set. -/
def bosToken : Token := 1

/-- Modelled from the spec: the token sequence a vocabulary assigns to a
text.  The header only declares `llama_tokenize`; the engine implementation
is not in the repository.  Per the spec every non-empty text tokenises
(byte fallback), modelled character-wise: each character contributes one
token carrying its code point; `addSpecial` prepends the BOS token. -/
def tokenSeq (text : List Char) (addSpecial : Bool) : List Token :=
  let base := text.map (fun c => (c.toNat : Int))
  if addSpecial then bosToken :: base else base

/-- Error taxonomy of the spec for tokenisation. -/
inductive TokenizeError
  | BufferTooSmall
deriving Repr, DecidableEq

/-- Modelled from the spec: `llama_tokenize` writes the token sequence into
a caller buffer of capacity `nTokensMax` and fails with `BufferTooSmall`
when the capacity is insufficient — a recoverable error, not a crash. -/
def llama_tokenize (text : List Char) (nTokensMax : Nat)
    (addSpecial : Bool) : Except TokenizeError (List Token) :=
  let toks := tokenSeq text addSpecial
  if toks.length ≤ nTokensMax then .ok toks else .error .BufferTooSmall

/-- Detokenisation by lookup: map each non-special token id back to the
character with that code point. -/
def detokenizeLookup (toks : List Token) : List Char :=
  toks.map (fun t => Char.ofNat t.toNat)

/-- A scalar of the engine's float32 embedding buffer, modelled
symbolically: either NaN or a rational value. -/
inductive FVal
  | nan
  | num (q : ℚ)
deriving Repr, DecidableEq

/-- Whether a modelled float is NaN. -/
def FVal.isNaN : FVal → Bool
  | .nan => true
  | .num _ => false

/-- Contents of a model-weight file as the loader sees it: a magic/version
check and the embedding dimension recorded in the weights. -/
structure ModelFile where
  magicOk : Bool
  nEmbd : Nat
deriving Repr, DecidableEq

/-- Model Handle: loaded weights.  The two staged flags record which of
the loader's construction stages ran, so that a half-built handle is
representable and atomicity on error is a real statement. -/
structure Model where
  nEmbd : Nat
  weightsLoaded : Bool
  vocabLoaded : Bool
deriving Repr, DecidableEq

/-- A Model Handle is fully built when both construction stages ran. -/
def Model.fullyBuilt (m : Model) : Prop :=
  m.weightsLoaded = true ∧ m.vocabLoaded = true

/-- Error taxonomy of the spec for loading. -/
inductive LoadError
  | FileMissing
  | Malformed
  | UnsupportedParams
deriving Repr, DecidableEq

/-- Header's `llama_model_n_embd`: the model's reported embedding
dimension. -/
def llama_model_n_embd (m : Model) : Nat := m.nEmbd

/-- Modelled from the spec: `llama_model_load_from_file` — the header only
declares it.  `fs` abstracts the file system (path to file contents),
`paramsSupported` abstracts the device/layer-split capability check on the
load parameters.  Fails with `LoadError` if the file is missing, malformed,
or the parameters are unsupported; otherwise returns a handle with both
construction stages complete — never a half-built one. -/
def llama_model_load_from_file (fs : String → Option ModelFile)
    (path : String) (paramsSupported : Bool) : Except LoadError Model :=
  match fs path with
  | none => .error .FileMissing
  | some f =>
      if f.magicOk = false then .error .Malformed
      else if paramsSupported = false then .error .UnsupportedParams
      else .ok { nEmbd := f.nEmbd, weightsLoaded := true, vocabLoaded := true }

/-- Context-creation parameters the model needs: requested KV size, batch
size and the embeddings flag, from `llama_context_params`. -/
structure ContextParams where
  nCtx : Nat
  nBatch : Nat
  embeddings : Bool
deriving Repr, DecidableEq

/-- Inference Context: mutable per-session runtime state bound to a Model
Handle — KV-memory occupancy, the embedding output buffer of the last
decode/encode, and whether device work is still pending (cleared by
Synchronize).  `kvAllocated` records the context's own construction stage
so a half-built context is representable. -/
structure Context where
  nEmbd : Nat
  nCtx : Nat
  used : Nat
  embeddings : Bool
  lastEmbd : Option (List FVal)
  pending : Bool
  kvAllocated : Bool
deriving Repr, DecidableEq

/-- An Inference Context is fully built when its KV-memory was allocated. -/
def Context.fullyBuilt (c : Context) : Prop :=
  c.kvAllocated = true

/-- Error taxonomy of the spec for context creation. -/
inductive ContextCreationError
  | LimitsExceeded
deriving Repr, DecidableEq

/-- Modelled from the spec: `llama_init_from_model` — the header only
declares it.  `deviceMaxCtx` abstracts the device limit; creation fails
with `ContextCreationError` when the requested context or batch size is
zero or exceeds the limit, and otherwise yields a fully built context
whose embedding dimension is the model's. -/
def llama_init_from_model (m : Model) (p : ContextParams)
    (deviceMaxCtx : Nat) : Except ContextCreationError Context :=
  if p.nCtx = 0 ∨ p.nBatch = 0 ∨ deviceMaxCtx < p.nCtx then
    .error .LimitsExceeded
  else
    .ok { nEmbd := m.nEmbd, nCtx := p.nCtx, used := 0,
          embeddings := p.embeddings, lastEmbd := none,
          pending := false, kvAllocated := true }

/-- Error taxonomy of the spec for decode/encode. -/
inductive DecodeError
  | ContextFull
  | InvalidBatch
deriving Repr, DecidableEq

/-- Modelled from the spec: the embedding vector the engine produces for a
batch — `nEmbd` rational entries, never NaN, each a pure function of the
batch contents. -/
def embdOf (nEmbd : Nat) (batch : List Token) : List FVal :=
  List.replicate nEmbd (FVal.num ((batch.foldl (· + ·) 0 : Int) : ℚ))

/-- Modelled from the spec: `llama_decode` — the header only declares it.
An empty batch is a caller bug (`InvalidBatch`, fatal to the call); a batch
that does not fit the remaining KV-memory yields `ContextFull` with the
context unchanged — never success with truncated output; otherwise the
batch is consumed, KV occupancy grows, and (when embeddings are enabled)
the embedding output buffer is filled, with device work left pending until
Synchronize. -/
def llama_decode (ctx : Context) (batch : List Token) :
    Context × Except DecodeError Unit :=
  if batch.isEmpty then (ctx, .error .InvalidBatch)
  else if ctx.nCtx < ctx.used + batch.length then
    (ctx, .error .ContextFull)
  else
    ({ ctx with
        used := ctx.used + batch.length,
        lastEmbd := if ctx.embeddings then some (embdOf ctx.nEmbd batch)
                    else ctx.lastEmbd,
        pending := true },
     .ok ())

/-- Modelled from the spec: `llama_memory_clear` resets the KV-memory so a
`ContextFull` condition is recoverable without destroying the context. -/
def llama_memory_clear (ctx : Context) (_data : Bool) : Context :=
  { ctx with used := 0 }

/-- Modelled from the spec: `llama_synchronize` blocks the caller until all
asynchronous device work queued by prior decode/encode calls completes. -/
def llama_synchronize (ctx : Context) : Context :=
  { ctx with pending := false }

/-- Modelled from the spec: `llama_get_embeddings_seq` — a view onto the
context's embedding buffer for the last decode/encode, valid once the
device work has been synchronised. -/
def llama_get_embeddings_seq (ctx : Context) : Option (List FVal) :=
  if ctx.pending then none else ctx.lastEmbd

end Llama

/-- C1: for every database connection and every outcome of the underlying
init call, `sqlite_vec_register` frees any error-message buffer that was
allocated internally before it returns, on every exit path including the
error path, and the caller never receives a dangling error pointer. -/
theorem register_frees_err_on_every_path (out : SqliteVec.InitOutcome) :
    (∀ e, out.err = some e →
      e ∈ (SqliteVec.sqlite_vec_register out).freed) ∧
    (SqliteVec.sqlite_vec_register out).returnedErr = none := by
  refine ⟨fun e he => ?_, rfl⟩
  simp [SqliteVec.sqlite_vec_register, he]

/-- Witness for C1 at a concrete error outcome: init failed with status 7
and an allocated message, which the register call frees and does not hand
to the caller. -/
theorem register_frees_err_on_every_path_witness :
    "boom" ∈ (SqliteVec.sqlite_vec_register ⟨7, some "boom"⟩).freed ∧
    (SqliteVec.sqlite_vec_register ⟨7, some "boom"⟩).returnedErr = none :=
  ⟨(register_frees_err_on_every_path ⟨7, some "boom"⟩).1 "boom" rfl,
   (register_frees_err_on_every_path ⟨7, some "boom"⟩).2⟩

/-- C2: `sqlite_vec_register` returns the integer status of the underlying
init call, so a non-zero status is never silently swallowed — it is always
surfaced unchanged to the immediate caller. -/
theorem register_surfaces_status (out : SqliteVec.InitOutcome) :
    (SqliteVec.sqlite_vec_register out).rc = out.rc ∧
    (out.rc ≠ 0 → (SqliteVec.sqlite_vec_register out).rc ≠ 0) := by
  exact ⟨rfl, fun h => h⟩

/-- Witness for C2 at a concrete failing outcome: a status 5 from the init
call comes back as 5, hence non-zero. -/
theorem register_surfaces_status_witness :
    (SqliteVec.sqlite_vec_register ⟨5, some "x"⟩).rc = (5 : Int) ∧
    (SqliteVec.sqlite_vec_register ⟨5, some "x"⟩).rc ≠ 0 :=
  ⟨(register_surfaces_status ⟨5, some "x"⟩).1,
   (register_surfaces_status ⟨5, some "x"⟩).2 (by decide)⟩

/-- C3: registering twice on the same connection returns success (a benign
no-op the second time, per the modelled idempotent init), never an aborting
error, and leaves exactly one set of vector functions installed. -/
theorem register_idempotent (conn : SqliteVec.Connection) (oom2 : Bool)
    (h : conn.installedSets = 0) :
    ((SqliteVec.registerOn false conn).2).rc = 0 ∧
    ((SqliteVec.registerOn oom2
        (SqliteVec.registerOn false conn).1).2).rc = 0 ∧
    (SqliteVec.registerOn oom2
        (SqliteVec.registerOn false conn).1).1.installedSets = 1 := by
  obtain ⟨n⟩ := conn
  simp only [SqliteVec.Connection.mk.injEq] at h
  subst h
  cases oom2 <;> decide

/-- Witness for C3: starting from a fresh connection, both register calls
return 0 and one function set is installed, even if the second call would
have hit an internal failure had it tried to install again. -/
theorem register_idempotent_witness :
    ((SqliteVec.registerOn false ⟨0⟩).2).rc = 0 ∧
    ((SqliteVec.registerOn true
        (SqliteVec.registerOn false ⟨0⟩).1).2).rc = 0 ∧
    (SqliteVec.registerOn true
        (SqliteVec.registerOn false ⟨0⟩).1).1.installedSets = 1 :=
  register_idempotent ⟨0⟩ true rfl

/-- C9: the register shim frees the error-message buffer whenever the init
call set it, unconditionally of the status code — including status 0 with a
message — so no message buffer is ever leaked on any outcome. -/
theorem register_never_leaks (out : SqliteVec.InitOutcome) :
    ¬ SqliteVec.leaks out ∧
    (∀ e, out.rc = 0 → out.err = some e →
      (SqliteVec.sqlite_vec_register out).freed = [e]) := by
  constructor
  · rintro ⟨e, he, hm⟩
    exact hm (by simp [SqliteVec.sqlite_vec_register, he])
  · intro e _ he
    simp [SqliteVec.sqlite_vec_register, he]

/-- Witness for C9 at the success-with-message outcome: status 0, a message
allocated, and the shim frees exactly that buffer. -/
theorem register_never_leaks_witness :
    ¬ SqliteVec.leaks ⟨0, some "notice"⟩ ∧
    (SqliteVec.sqlite_vec_register ⟨0, some "notice"⟩).freed = ["notice"] :=
  ⟨(register_never_leaks ⟨0, some "notice"⟩).1,
   (register_never_leaks ⟨0, some "notice"⟩).2 "notice" rfl rfl⟩

/-- C10: the value `sqlite_vec_register` returns is exactly the status code
of the underlying init call, unchanged; the message text is discarded, so
two init outcomes with the same status are indistinguishable to the caller
regardless of their messages. -/
theorem register_returns_rc_discards_msg
    (o1 o2 : SqliteVec.InitOutcome) (h : o1.rc = o2.rc) :
    (SqliteVec.sqlite_vec_register o1).rc = o1.rc ∧
    (SqliteVec.sqlite_vec_register o1).returnedErr = none ∧
    SqliteVec.callerView (SqliteVec.sqlite_vec_register o1) =
      SqliteVec.callerView (SqliteVec.sqlite_vec_register o2) := by
  refine ⟨rfl, rfl, ?_⟩
  simp [SqliteVec.callerView, SqliteVec.sqlite_vec_register, h]

/-- Witness for C10: a failing outcome with a message and one without are
observationally equal to the caller. -/
theorem register_returns_rc_discards_msg_witness :
    (SqliteVec.sqlite_vec_register ⟨3, some "conflict"⟩).rc = (3 : Int) ∧
    (SqliteVec.sqlite_vec_register ⟨3, some "conflict"⟩).returnedErr
      = none ∧
    SqliteVec.callerView (SqliteVec.sqlite_vec_register ⟨3, some "conflict"⟩)
      = SqliteVec.callerView (SqliteVec.sqlite_vec_register ⟨3, none⟩) :=
  register_returns_rc_discards_msg ⟨3, some "conflict"⟩ ⟨3, none⟩ rfl

/-- C4: for every non-empty input text, tokenising with an output capacity
of 0 — or any capacity below the token count — returns the `BufferTooSmall`
error value rather than crashing, a recoverable error path. -/
theorem tokenize_buffer_too_small (text : List Char) (nMax : Nat)
    (hne : text ≠ [])
    (hcap : nMax = 0 ∨ nMax < (Llama.tokenSeq text false).length) :
    Llama.llama_tokenize text nMax false
      = .error .BufferTooSmall := by
  have hlen : (Llama.tokenSeq text false).length = text.length := by
    simp [Llama.tokenSeq]
  have hpos : 0 < text.length := List.length_pos.mpr hne
  have hlt : nMax < (Llama.tokenSeq text false).length := by
    rcases hcap with h0 | hlt
    · omega
    · exact hlt
  simp [Llama.llama_tokenize, Nat.not_le.mpr hlt]

/-- Witness for C4: capacity 0 on the two-character text "hi" yields
`BufferTooSmall`. -/
theorem tokenize_buffer_too_small_witness :
    Llama.llama_tokenize [Char.ofNat 104, Char.ofNat 105] 0 false
      = .error .BufferTooSmall :=
  tokenize_buffer_too_small [Char.ofNat 104, Char.ofNat 105] 0
    (by decide) (Or.inl rfl)

/-- C5: for every non-empty input text, tokenising with `addSpecial = false`
and sufficient capacity succeeds with a token sequence of length at least 1,
and detokenisation-by-lookup recovers as many characters. -/
theorem tokenize_nonempty_at_least_one (text : List Char) (nMax : Nat)
    (hne : text ≠ []) (hcap : text.length ≤ nMax) :
    ∃ toks, Llama.llama_tokenize text nMax false = .ok toks ∧
      1 ≤ toks.length ∧
      (Llama.detokenizeLookup toks).length = toks.length := by
  refine ⟨Llama.tokenSeq text false, ?_, ?_, ?_⟩
  · have hlen : (Llama.tokenSeq text false).length = text.length := by
      simp [Llama.tokenSeq]
    simp [Llama.llama_tokenize, hlen, hcap]
  · have hpos : 0 < text.length := List.length_pos.mpr hne
    simp [Llama.tokenSeq]
    omega
  · simp [Llama.detokenizeLookup]

/-- Witness for C5: the two-character text "hi" with capacity 2 tokenises
to a sequence of length at least 1. -/
theorem tokenize_nonempty_at_least_one_witness :
    ∃ toks,
      Llama.llama_tokenize [Char.ofNat 104, Char.ofNat 105] 2 false
        = .ok toks ∧
      1 ≤ toks.length ∧
      (Llama.detokenizeLookup toks).length = toks.length :=
  tokenize_nonempty_at_least_one [Char.ofNat 104, Char.ofNat 105] 2
    (by decide) (by decide)

/-- C6: decoding a valid batch on a context whose KV-memory is filled to
its configured `n_ctx` returns the `ContextFull` error — never success with
truncated output — and after `llama_memory_clear` resets the KV-memory, a
subsequent decode of the same batch on the same context succeeds. -/
theorem decode_context_full_then_clear_recovers
    (ctx : Llama.Context) (batch : List Llama.Token)
    (hb : batch ≠ []) (hfull : ctx.used = ctx.nCtx)
    (hfit : batch.length ≤ ctx.nCtx) :
    (Llama.llama_decode ctx batch).2
      = .error .ContextFull ∧
    (Llama.llama_decode
        (Llama.llama_memory_clear (Llama.llama_decode ctx batch).1 true)
        batch).2 = .ok () := by
  have hne : batch.isEmpty = false := by
    simpa [List.isEmpty_iff] using hb
  have hpos : 0 < batch.length := List.length_pos.mpr hb
  have hover : ctx.nCtx < ctx.used + batch.length := by omega
  constructor
  · simp [Llama.llama_decode, hne, hover]
  · have hctx : (Llama.llama_decode ctx batch).1 = ctx := by
      simp [Llama.llama_decode, hne, hover]
    rw [hctx]
    have hcond : ¬ ctx.nCtx < batch.length := by omega
    simp [Llama.llama_decode, Llama.llama_memory_clear, hne, hcond]

/-- Witness for C6: a context of size 8 with all 8 KV cells used rejects a
three-token batch with `ContextFull`, and the same batch decodes after the
memory is cleared. -/
theorem decode_context_full_then_clear_recovers_witness :
    (Llama.llama_decode ⟨4, 8, 8, true, none, false, true⟩ [1, 2, 3]).2
      = .error .ContextFull ∧
    (Llama.llama_decode
        (Llama.llama_memory_clear
          (Llama.llama_decode ⟨4, 8, 8, true, none, false, true⟩
            [1, 2, 3]).1 true)
        [1, 2, 3]).2 = .ok () :=
  decode_context_full_then_clear_recovers
    ⟨4, 8, 8, true, none, false, true⟩ [1, 2, 3]
    (by decide) rfl (by decide)

/-- C7: a context created from a model has the model's reported embedding
dimension, and with embeddings enabled, the embedding vector read after a
successful decode plus synchronize has length exactly that dimension and
contains no NaN entries. -/
theorem embedding_dim_matches_model
    (m : Llama.Model) (p : Llama.ContextParams) (d : Nat)
    (ctx : Llama.Context) (batch : List Llama.Token)
    (hinit : Llama.llama_init_from_model m p d = .ok ctx)
    (hemb : p.embeddings = true)
    (hdec : (Llama.llama_decode ctx batch).2 = .ok ()) :
    ctx.nEmbd = Llama.llama_model_n_embd m ∧
    ∃ v, Llama.llama_get_embeddings_seq
          (Llama.llama_synchronize (Llama.llama_decode ctx batch).1)
        = some v ∧
      v.length = Llama.llama_model_n_embd m ∧
      ∀ x ∈ v, x.isNaN = false := by
  unfold Llama.llama_init_from_model at hinit
  split at hinit
  · exact absurd hinit (by simp)
  · injection hinit with h
    subst h
    by_cases hbe : batch.isEmpty
    · exact absurd hdec (by simp [Llama.llama_decode, hbe])
    · by_cases hov : p.nCtx < batch.length
      · exact absurd hdec (by simp [Llama.llama_decode, hbe, hov])
      · refine ⟨rfl, Llama.embdOf m.nEmbd batch, ?_, ?_, ?_⟩
        · simp [Llama.llama_decode, hbe, hov, Llama.llama_synchronize,
                Llama.llama_get_embeddings_seq, hemb]
        · show (Llama.embdOf m.nEmbd batch).length = Llama.llama_model_n_embd m
          unfold Llama.embdOf Llama.llama_model_n_embd
          exact List.length_replicate _ _
        · intro x hx
          unfold Llama.embdOf at hx
          rw [(List.eq_of_mem_replicate hx :
                x = Llama.FVal.num ((batch.foldl (· + ·) 0 : Int) : ℚ))]
          rfl

/-- Witness for C7: a model with embedding dimension 3, a context of size 8
created from it with embeddings on, and a one-token batch — the embedding
read after decode plus synchronize has length 3 and no NaN entries. -/
theorem embedding_dim_matches_model_witness :
    (⟨3, 8, 0, true, none, false, true⟩ : Llama.Context).nEmbd
      = Llama.llama_model_n_embd ⟨3, true, true⟩ ∧
    ∃ v, Llama.llama_get_embeddings_seq
          (Llama.llama_synchronize
            (Llama.llama_decode
              (⟨3, 8, 0, true, none, false, true⟩ : Llama.Context)
              [2]).1)
        = some v ∧
      v.length = Llama.llama_model_n_embd ⟨3, true, true⟩ ∧
      ∀ x ∈ v, x.isNaN = false :=
  embedding_dim_matches_model ⟨3, true, true⟩ ⟨8, 4, true⟩ 16
    ⟨3, 8, 0, true, none, false, true⟩ [2] rfl rfl rfl

/-- C8: a failed load or context creation leaves no partially-initialized
handle accessible: whenever either operation returns a handle, that handle
is fully built, and on failure the caller receives only the explicit error
value. -/
theorem load_and_context_atomic_on_error
    (fs : String → Option Llama.ModelFile) (path : String)
    (paramsSupported : Bool) (m0 : Llama.Model)
    (p : Llama.ContextParams) (d : Nat) :
    (∀ m, Llama.llama_model_load_from_file fs path paramsSupported = .ok m →
      m.fullyBuilt) ∧
    (∀ c, Llama.llama_init_from_model m0 p d = .ok c →
      c.fullyBuilt) := by
  constructor
  · intro m hm
    unfold Llama.llama_model_load_from_file at hm
    split at hm
    · exact absurd hm (by simp)
    · split at hm
      · exact absurd hm (by simp)
      · split at hm
        · exact absurd hm (by simp)
        · injection hm with h
          subst h
          exact ⟨rfl, rfl⟩
  · intro c hc
    unfold Llama.llama_init_from_model at hc
    split at hc
    · exact absurd hc (by simp)
    · injection hc with h
      subst h
      exact rfl

/-- Witness for C8: a load that succeeds on a well-formed file yields a
fully built model handle, and a context creation within limits yields a
fully built context. -/
theorem load_and_context_atomic_on_error_witness :
    Llama.Model.fullyBuilt ⟨4, true, true⟩ ∧
    Llama.Context.fullyBuilt ⟨4, 8, 0, true, none, false, true⟩ :=
  ⟨(load_and_context_atomic_on_error (fun _ => some ⟨true, 4⟩) "model.gguf"
      true ⟨4, true, true⟩ ⟨8, 4, true⟩ 16).1 ⟨4, true, true⟩ rfl,
   (load_and_context_atomic_on_error (fun _ => some ⟨true, 4⟩) "model.gguf"
      true ⟨4, true, true⟩ ⟨8, 4, true⟩ 16).2
      ⟨4, 8, 0, true, none, false, true⟩ rfl⟩
